import Mathlib

/-!
Verification of the Seek bounty backend.

Shallow embedding of the core services:
- `bounty` store (`attestation.service.ts` / `bounty.service.ts`): create,
  lookup, status update, expiry sweep, terminal-bounty purge;
- settlement sequencer (`solana.service.ts` `resolveBountyOnChain`) and the
  settlement section of the `POST /submit` route handler;
- finalization worker (`finalizer.service.ts`);
- anti-fraud pre-checks and adjudication post-processing
  (`exif.service.ts`, `ai.service.ts`);
- identity / anti-sybil verification (`sgt.service.ts`).

JavaScript `Map` objects are modelled as insertion-ordered association
lists (`Jmap`); `Map.set` overwrites in place or appends, `Map.delete`
filters, iteration follows insertion order.  External effects (chain RPC
calls, the vision-model call, clock reads, randomness) are passed in as
explicit arguments.  Times are epoch values; JS floats that only ever
carry exact decimal constants (confidence scores) are modelled as `ℚ`.
-/

namespace Seek

/-! ## JS `Map` model -/

abbrev Jmap (α : Type) := List (String × α)

namespace Jmap

/-- `Map.get`: first binding for the key, if any. -/
def get {α : Type} : Jmap α → String → Option α
  | [], _ => none
  | (k', v) :: rest, k => if k' = k then some v else get rest k

/-- `Map.set`: overwrite the existing binding in place, else append. -/
def set {α : Type} : Jmap α → String → α → Jmap α
  | [], k, v => [(k, v)]
  | (k', v') :: rest, k, v =>
      if k' = k then (k, v) :: rest else (k', v') :: set rest k v

/-- `Map.delete`: remove every binding for the key. -/
def del {α : Type} (m : Jmap α) (k : String) : Jmap α :=
  m.filter (fun p => p.1 ≠ k)

/-- The stored values, in insertion order (`Map.prototype.values`). -/
def vals {α : Type} (m : Jmap α) : List α := m.map Prod.snd

/-- The keys, in insertion order (`Map.prototype.keys`). -/
def keys {α : Type} (m : Jmap α) : List String := m.map Prod.fst

end Jmap

/-! ## String helpers

`String.prototype.includes`, `slice`, `toLowerCase` over the character
list, so that concrete instances reduce in the kernel. -/

def charsPrefix : List Char → List Char → Bool
  | [], _ => true
  | _ :: _, [] => false
  | c :: cs, d :: ds => c == d && charsPrefix cs ds

def charsIncludes (pat : List Char) : List Char → Bool
  | [] => charsPrefix pat []
  | c :: rest => charsPrefix pat (c :: rest) || charsIncludes pat rest

/-- `s.includes(pat)`. -/
def strIncludes (s pat : String) : Bool :=
  charsIncludes pat.data s.data

/-- `s.slice(0, n)`. -/
def strTake (s : String) (n : Nat) : String :=
  ⟨s.data.take n⟩

/-- `s.toLowerCase()` (ASCII, which is all the source compares). -/
def strLower (s : String) : String :=
  ⟨s.data.map Char.toLower⟩

/-! ## Shared types and constants (`types.ts`) -/

inductive Tier
  | one
  | two
  | three
deriving DecidableEq, Repr

/-- Entry amounts in lamports (9 decimals). -/
def ENTRY_AMOUNTS : Tier → Nat
  | .one => 1000000000000
  | .two => 2000000000000
  | .three => 3000000000000

/-- Timer durations in seconds. -/
def TIER_DURATIONS : Tier → Nat
  | .one => 600
  | .two => 300
  | .three => 120

/-- Per-tier AI confidence thresholds (0.80 / 0.85 / 0.90). -/
def TIER_CONFIDENCE_THRESHOLDS : Tier → ℚ
  | .one => mkRat 80 100
  | .two => mkRat 85 100
  | .three => mkRat 90 100

inductive BountyStatus
  | pending
  | validating
  | won
  | lost
  | expired
deriving DecidableEq, Repr

structure ActiveBounty where
  id : String
  missionId : String
  playerWallet : String
  tier : Tier
  entryAmount : Nat
  status : BountyStatus
  createdAt : Nat
  expiresAt : Nat
  bountyPda : String
  transactionSignature : Option String
deriving DecidableEq, Repr

/-- The stored commit-reveal inputs: 32-byte mission-id digest and salt. -/
structure MissionSecret where
  missionIdBytes : List Nat
  salt : List Nat
deriving DecidableEq, Repr

/-! ## Bounty state store (`bounty.service.ts`)

The three module-level maps `activeBounties`, `bountyByPlayer` and
`missionSecrets`, threaded explicitly. -/

structure BountyState where
  activeBounties : Jmap ActiveBounty
  bountyByPlayer : Jmap String
  missionSecrets : Jmap MissionSecret
deriving DecidableEq, Repr

/-- `createBounty`.  The uuid (`newId`), the drawn mission (`missionId`)
and the clock (`now`, epoch ms) are passed in explicitly.  Throwing is
modelled as `Except.error`. -/
def createBounty (st : BountyState) (playerWallet : String) (tier : Tier)
    (bountyPda : String) (transactionSignature : Option String)
    (newId missionId : String) (now : Nat) :
    Except String (BountyState × ActiveBounty) :=
  let conflict : Bool :=
    match Jmap.get st.bountyByPlayer playerWallet with
    | some existingBountyId =>
        match Jmap.get st.activeBounties existingBountyId with
        | some existing => existing.status == .pending
        | none => false
    | none => false
  if conflict then
    .error "Player already has an active bounty"
  else
    let bounty : ActiveBounty :=
      { id := newId
        missionId := missionId
        playerWallet := playerWallet
        tier := tier
        entryAmount := ENTRY_AMOUNTS tier
        status := .pending
        createdAt := now
        expiresAt := now + TIER_DURATIONS tier * 1000
        bountyPda := bountyPda
        transactionSignature := transactionSignature }
    .ok ({ st with
            activeBounties := Jmap.set st.activeBounties newId bounty
            bountyByPlayer := Jmap.set st.bountyByPlayer playerWallet newId },
         bounty)

/-- `getBounty`. -/
def getBounty (st : BountyState) (bountyId : String) : Option ActiveBounty :=
  Jmap.get st.activeBounties bountyId

/-- `getPlayerActiveBounty`. -/
def getPlayerActiveBounty (st : BountyState) (playerWallet : String) :
    Option ActiveBounty :=
  match Jmap.get st.bountyByPlayer playerWallet with
  | none => none
  | some bountyId =>
      match Jmap.get st.activeBounties bountyId with
      | none => none
      | some bounty => if bounty.status = .pending then some bounty else none

/-- `updateBountyStatus`. -/
def updateBountyStatus (st : BountyState) (bountyId : String)
    (status : BountyStatus) (transactionSignature : Option String) :
    BountyState × Option ActiveBounty :=
  match Jmap.get st.activeBounties bountyId with
  | none => (st, none)
  | some bounty =>
      let bounty' :=
        { bounty with
            status := status
            transactionSignature :=
              match transactionSignature with
              | some s => some s
              | none => bounty.transactionSignature }
      ({ st with activeBounties := Jmap.set st.activeBounties bountyId bounty' },
       some bounty')

/-- `storeMissionSecrets`. -/
def storeMissionSecrets (st : BountyState) (bountyId : String)
    (missionIdBytes salt : List Nat) : BountyState :=
  { st with
      missionSecrets :=
        Jmap.set st.missionSecrets bountyId ⟨missionIdBytes, salt⟩ }

/-- `getMissionSecrets`. -/
def getMissionSecrets (st : BountyState) (bountyId : String) :
    Option MissionSecret :=
  Jmap.get st.missionSecrets bountyId

/-- `markBountyValidating`. -/
def markBountyValidating (st : BountyState) (bountyId : String) :
    BountyState × Bool :=
  match Jmap.get st.activeBounties bountyId with
  | none => (st, false)
  | some bounty =>
      if bounty.status ≠ .pending then (st, false)
      else
        ({ st with
            activeBounties :=
              Jmap.set st.activeBounties bountyId
                { bounty with status := .validating } },
         true)

/-- `expireOldBounties`: every `pending` bounty past its deadline becomes
`expired` (`now` in epoch ms). -/
def expireOldBounties (st : BountyState) (now : Nat) : BountyState :=
  { st with
      activeBounties :=
        st.activeBounties.map (fun p =>
          if p.2.status = .pending ∧ now > p.2.expiresAt then
            (p.1, { p.2 with status := .expired })
          else p) }

/-- `cleanupOldBounties`: purge terminal bounties older than the
retention horizon, deleting the bounty record, the wallet's
player-to-bounty index entry, and the mission secret. -/
def cleanupOldBounties (st : BountyState) (now : Nat) (maxAgeHours : Nat) :
    BountyState :=
  let cutoff := now - maxAgeHours * 60 * 60 * 1000
  st.activeBounties.foldl
    (fun acc entry =>
      if entry.2.status ≠ .pending ∧ entry.2.status ≠ .validating ∧
          entry.2.createdAt < cutoff then
        { acc with
            activeBounties := Jmap.del acc.activeBounties entry.1
            bountyByPlayer := Jmap.del acc.bountyByPlayer entry.2.playerWallet
            missionSecrets := Jmap.del acc.missionSecrets entry.1 }
      else acc)
    st

/-! ## `POST /api/bounty/start` handler (`bounty.routes.ts`) -/

inductive StartOutcome
  | conflict
  | created (st : BountyState) (bounty : ActiveBounty)
  | serverError
deriving DecidableEq, Repr

def StartOutcome.isConflict : StartOutcome → Bool
  | .conflict => true
  | _ => false

def StartOutcome.newState : StartOutcome → Option BountyState
  | .created st _ => some st
  | _ => none

/-- The `/start` route body: the route-level active-bounty check, then
`createBounty`, then commitment generation and `storeMissionSecrets`.
The commitment inputs come from `generateMissionCommitment` and are
passed in (`missionIdBytes`, `salt`). -/
def startBountyHandler (st : BountyState) (playerWallet : String)
    (tier : Tier) (bountyPda : String) (transactionSignature : Option String)
    (newId missionId : String) (missionIdBytes salt : List Nat) (now : Nat) :
    StartOutcome :=
  match getPlayerActiveBounty st playerWallet with
  | some _ => .conflict
  | none =>
      match createBounty st playerWallet tier bountyPda transactionSignature
          newId missionId now with
      | .error _ => .serverError
      | .ok (st', bounty) =>
          .created (storeMissionSecrets st' bounty.id missionIdBytes salt) bounty

/-! ## Settlement sequencer (`solana.service.ts`)

The three on-chain calls are external transactions; their outcomes are
supplied by a `ChainOracle` (success yields a signature, failure the
thrown error's message).  `resolveBountyOnChain` also returns the trace
of calls it issued, in order. -/

instance {ε α : Type} [DecidableEq ε] [DecidableEq α] :
    DecidableEq (Except ε α) := fun a b =>
  match a, b with
  | .error e, .error e' =>
      if h : e = e' then .isTrue (by rw [h]) else .isFalse (by simp [h])
  | .ok x, .ok y =>
      if h : x = y then .isTrue (by rw [h]) else .isFalse (by simp [h])
  | .error _, .ok _ => .isFalse (by simp)
  | .ok _, .error _ => .isFalse (by simp)

inductive ChainCall
  | reveal
  | propose (success : Bool)
  | finalize
deriving DecidableEq, Repr

structure ChainOracle where
  revealResult : Except String String
  proposeResult : Except String String
  finalizeResult : Except String (String × Bool)
deriving DecidableEq, Repr

structure ResolveResult where
  signature : String
  singularityWon : Bool
deriving DecidableEq, Repr

/-- The catch block of `resolveBountyOnChain`: a thrown error whose
message includes `ChallengePeriodActive` is converted into a placeholder
"pending finalize" success; anything else is rethrown. -/
def catchChallengePeriod (e : String) (bountyPda : String) :
    Except String ResolveResult :=
  if strIncludes e "ChallengePeriodActive" then
    .ok { signature := "pending_finalize_" ++ strTake bountyPda 16
          singularityWon := false }
  else .error e

/-- `resolveBountyOnChain`: reveal (when the commitment inputs are
present), then propose, then finalize — all three in sequence in the
same call.  Any throw from the three steps lands in
`catchChallengePeriod`. -/
def resolveBountyOnChain (oracle : ChainOracle) (bountyPda : String)
    (success : Bool) (secrets : Option MissionSecret) :
    Except String ResolveResult × List ChainCall :=
  let afterReveal : List ChainCall → Except String ResolveResult × List ChainCall :=
    fun calls =>
      match oracle.proposeResult with
      | .error e => (catchChallengePeriod e bountyPda, calls ++ [.propose success])
      | .ok _ =>
          match oracle.finalizeResult with
          | .error e =>
              (catchChallengePeriod e bountyPda,
               calls ++ [.propose success, .finalize])
          | .ok (sig, singularityWon) =>
              (.ok { signature := sig, singularityWon := singularityWon },
               calls ++ [.propose success, .finalize])
  match secrets with
  | none => afterReveal []
  | some _ =>
      match oracle.revealResult with
      | .error e => (catchChallengePeriod e bountyPda, [.reveal])
      | .ok _ => afterReveal [.reveal]

/-! ## Finalization worker (`finalizer.service.ts`) -/

structure PendingFinalization where
  bountyPda : String
  playerWallet : String
  challengeEndsAt : Nat
  attempts : Nat
  addedAt : Nat
deriving DecidableEq, Repr

/-- Max retry attempts before giving up. -/
def MAX_ATTEMPTS : Nat := 10

/-- `queueFinalization`: enqueue is idempotent — an already-queued
settlement reference is left untouched. -/
def queueFinalization (q : Jmap PendingFinalization)
    (bountyPda playerWallet : String) (challengeEndsAt now : Nat) :
    Jmap PendingFinalization :=
  if (Jmap.get q bountyPda).isSome then q
  else
    Jmap.set q bountyPda
      { bountyPda := bountyPda
        playerWallet := playerWallet
        challengeEndsAt := challengeEndsAt
        attempts := 0
        addedAt := now }

/-- One iteration of the per-record loop body in
`processPendingFinalizations`: on success delete the record; on failure
increment the attempt counter, deleting the record once the counter
reaches `MAX_ATTEMPTS`. -/
def finalizeAttemptStep (q : Jmap PendingFinalization)
    (p : PendingFinalization) (succeeded : Bool) : Jmap PendingFinalization :=
  if succeeded then Jmap.del q p.bountyPda
  else
    let p' := { p with attempts := p.attempts + 1 }
    if MAX_ATTEMPTS ≤ p'.attempts then Jmap.del q p.bountyPda
    else Jmap.set q p.bountyPda p'

/-- `processPendingFinalizations`: snapshot the due records, then run
the attempt loop (`outcome` tells whether this run's on-chain finalize
for a given settlement reference succeeded); `now` in epoch seconds. -/
def processPendingFinalizations (q : Jmap PendingFinalization) (now : Nat)
    (outcome : String → Bool) : Jmap PendingFinalization :=
  let ready := (Jmap.vals q).filter (fun p => p.challengeEndsAt ≤ now)
  ready.foldl (fun acc p => finalizeAttemptStep acc p (outcome p.bountyPda)) q

/-! ## Anti-fraud pre-checks (`exif.service.ts`) -/

structure PhotoMetadata where
  timestamp : Option Int
  latitude : Option ℚ
  longitude : Option ℚ
  deviceMake : Option String
  deviceModel : Option String
deriving DecidableEq, Repr

/-- JS falsiness of an optional number (`!x`): absent or zero. -/
def numFalsy : Option ℚ → Bool
  | none => true
  | some v => v == 0

/-- JS falsiness of an optional string (`!s`): absent or empty. -/
def stringFalsy : Option String → Bool
  | none => true
  | some s => s == ""

/-- `isLikelyScreenshot`: no GPS and no device make/model, or a
screen-capture signature in the device-model string. -/
def isLikelyScreenshot (m : PhotoMetadata) : Bool :=
  let hasNoGps := numFalsy m.latitude && numFalsy m.longitude
  let hasNoDevice := stringFalsy m.deviceMake && stringFalsy m.deviceModel
  let deviceModel := strLower (m.deviceModel.getD "")
  let hasSuspiciousModel :=
    ["screenshot", "screen", "capture"].any (fun s => strIncludes deviceModel s)
  if hasNoDevice && hasNoGps then true
  else if hasSuspiciousModel then true
  else false

/-- `isPhotoRecent` (`now`, `timestamp` in epoch ms): age must be at
most `maxAgeSeconds` and at least one minute into the future. -/
def isPhotoRecent (m : PhotoMetadata) (maxAgeSeconds : ℚ) (now : Int) : Bool :=
  match m.timestamp with
  | none => true
  | some t =>
      let ageSeconds : ℚ := mkRat (now - t) 1000
      decide (ageSeconds ≤ maxAgeSeconds) && decide (mkRat (-60) 1 ≤ ageSeconds)

/-! ## Adjudicator (`ai.service.ts`) -/

structure ValidationResult where
  isValid : Bool
  confidence : ℚ
  reasoning : String
  detectedObjects : List String
  isScreenshot : Bool
  matchesTarget : Bool
deriving DecidableEq, Repr

/-- `performPreChecks`: screenshot heuristic, then recency, then
pre-capture (photo must not predate the bounty by more than 5s).
Returns `(passed, terminal verdict when failed)`. -/
def performPreChecks (m : PhotoMetadata) (bountyStartTime : Option Int)
    (maxPhotoAgeSeconds : ℚ) (now : Int) : Bool × ValidationResult :=
  if isLikelyScreenshot m then
    (false,
     { isValid := false
       confidence := mkRat 9 10
       reasoning := "Photo metadata indicates this is likely a screenshot (no GPS, no device info)"
       detectedObjects := []
       isScreenshot := true
       matchesTarget := false })
  else if !(isPhotoRecent m maxPhotoAgeSeconds now) then
    (false,
     { isValid := false
       confidence := mkRat 9 10
       reasoning := "Photo timestamp is too old or in the future"
       detectedObjects := []
       isScreenshot := false
       matchesTarget := false })
  else
    match bountyStartTime, m.timestamp with
    | some bountyStart, some photoTime =>
        if photoTime < bountyStart - 5000 then
          (false,
           { isValid := false
             confidence := mkRat 95 100
             reasoning := "Photo was taken before the bounty started - possible pre-captured image"
             detectedObjects := []
             isScreenshot := false
             matchesTarget := false })
        else
          (true,
           { isValid := true, confidence := 1, reasoning := ""
             detectedObjects := [], isScreenshot := false, matchesTarget := true })
    | _, _ =>
        (true,
         { isValid := true, confidence := 1, reasoning := ""
           detectedObjects := [], isScreenshot := false, matchesTarget := true })

/-- Percentage rendering used in the appended reasoning
(`(x * 100).toFixed(0)`). -/
def pctString (x : ℚ) : String :=
  toString (round (x * 100))

/-- The post-schema verdict adjustment inside `validatePhoto`: apply the
per-tier confidence floor (falling back to the global configured
minimum when no tier is given), then force a loss when the model
flagged a screenshot. -/
def applyConfidenceFloor (result : ValidationResult) (tier : Option Tier)
    (minConfidenceScore : ℚ) : ValidationResult :=
  let threshold :=
    match tier with
    | some t => TIER_CONFIDENCE_THRESHOLDS t
    | none => minConfidenceScore
  let r1 :=
    if result.confidence < threshold then
      { result with
          isValid := false
          reasoning := result.reasoning ++ " (Confidence " ++
            pctString result.confidence ++ "% below tier threshold " ++
            pctString threshold ++ "%)" }
    else result
  if r1.isScreenshot then { r1 with isValid := false } else r1

/-- The fail-closed verdict returned by `validatePhoto`'s catch block. -/
def systemErrorResult : ValidationResult :=
  { isValid := false
    confidence := 0
    reasoning := "Validation system error - please try again"
    detectedObjects := []
    isScreenshot := false
    matchesTarget := false }

/-- `validatePhoto`.  `isDev` is `config.server.isDev` (pre-checks are
skipped in dev mode); `aiOutcome` is everything inside the `try` block:
`.ok` is a schema-validated model response, `.error` any
transport/parse/schema throw.  Returns the final verdict and whether
the vision call was issued. -/
def validatePhoto (isDev : Bool) (m : PhotoMetadata) (tier : Option Tier)
    (bountyStartTime : Option Int) (maxPhotoAgeSeconds minConfidenceScore : ℚ)
    (now : Int) (aiOutcome : Except String ValidationResult) :
    ValidationResult × Bool :=
  let runAdjudicator : ValidationResult × Bool :=
    match aiOutcome with
    | .error _ => (systemErrorResult, true)
    | .ok result => (applyConfidenceFloor result tier minConfidenceScore, true)
  if isDev then runAdjudicator
  else
    let pre := performPreChecks m bountyStartTime maxPhotoAgeSeconds now
    if pre.1 then runAdjudicator else (pre.2, false)

/-! ## Settlement section of the `POST /api/bounty/submit` handler
(`bounty.routes.ts`): look up the commit-reveal secrets, run the
sequencer, then record the terminal status.  The finalization worker's
queue is part of the observable state so that the handler's frame on it
is explicit: the handler never touches it. -/

structure SubmitSettleOutcome where
  response : Except String (BountyStatus × ResolveResult)
  st : BountyState
  finalizerQueue : Jmap PendingFinalization
  calls : List ChainCall
deriving DecidableEq, Repr

def submitSettlement (st : BountyState) (fq : Jmap PendingFinalization)
    (bounty : ActiveBounty) (oracle : ChainOracle) (success : Bool) :
    SubmitSettleOutcome :=
  let secrets := getMissionSecrets st bounty.id
  let step := resolveBountyOnChain oracle bounty.bountyPda success secrets
  match step.1 with
  | .error e =>
      { response := .error e, st := st, finalizerQueue := fq, calls := step.2 }
  | .ok r =>
      let newStatus : BountyStatus := if success then .won else .lost
      let st' := (updateBountyStatus st bounty.id newStatus (some r.signature)).1
      { response := .ok (newStatus, r)
        st := st'
        finalizerQueue := fq
        calls := step.2 }

/-! ## Sybil-guarded identity verification (`sgt.service.ts`) -/

structure SGTVerificationResult where
  verified : Bool
  sgtMintAddress : Option String
  walletAddress : String
  verifiedAt : Option Nat
  error : Option String
deriving DecidableEq, Repr

structure SGTState where
  verifiedWallets : Jmap SGTVerificationResult
  sgtMintToWallet : Jmap String
deriving DecidableEq, Repr

/-- `verifySGTForWallet`: SIWS signature check (its outcome `sigValid`
is supplied, the nonce protocol being orthogonal), token-ownership
lookup (`hasSGT`, `mintAddress` from the chain query), then the
anti-sybil registry check — a mint already registered to a different
wallet fails with the sybil-specific error and leaves the registry
untouched. -/
def verifySGTForWallet (st : SGTState) (walletAddress : String)
    (sigValid : Bool) (hasSGT : Bool) (mintAddress : Option String)
    (now : Nat) : SGTState × SGTVerificationResult :=
  if !sigValid then
    (st,
     { verified := false, sgtMintAddress := none, walletAddress := walletAddress
       verifiedAt := none, error := some "Invalid signature" })
  else
    match hasSGT, mintAddress with
    | true, some mint =>
        let proceed : SGTState × SGTVerificationResult :=
          let result : SGTVerificationResult :=
            { verified := true, sgtMintAddress := some mint
              walletAddress := walletAddress, verifiedAt := some now
              error := none }
          ({ verifiedWallets := Jmap.set st.verifiedWallets walletAddress result
             sgtMintToWallet := Jmap.set st.sgtMintToWallet mint walletAddress },
           result)
        match Jmap.get st.sgtMintToWallet mint with
        | some existingOwner =>
            if existingOwner ≠ walletAddress then
              (st,
               { verified := false, sgtMintAddress := some mint
                 walletAddress := walletAddress, verifiedAt := none
                 error := some "This SGT is already registered to another wallet" })
            else proceed
        | none => proceed
    | _, _ =>
        (st,
         { verified := false, sgtMintAddress := none
           walletAddress := walletAddress, verifiedAt := none
           error := some "No Seeker Genesis Token found" })

/-- `Except.isOk` as a plain Bool inspector. -/
def isOkE {ε α : Type} : Except ε α → Bool
  | .ok _ => true
  | .error _ => false

/-! ## Map lemmas -/

theorem Jmap.get_set_self {α : Type} (m : Jmap α) (k : String) (v : α) :
    Jmap.get (Jmap.set m k v) k = some v := by
  induction m with
  | nil => simp [Jmap.set, Jmap.get]
  | cons p rest ih =>
      obtain ⟨k', v'⟩ := p
      by_cases h : k' = k
      · simp [Jmap.set, h, Jmap.get]
      · simp [Jmap.set, h, Jmap.get, ih]

theorem Jmap.get_del_self {α : Type} (m : Jmap α) (k : String) :
    Jmap.get (Jmap.del m k) k = none := by
  induction m with
  | nil => simp [Jmap.del, Jmap.get]
  | cons p rest ih =>
      obtain ⟨k', v'⟩ := p
      by_cases h : k' = k
      · simpa [Jmap.del, h] using ih
      · simpa [Jmap.del, h, Jmap.get] using ih

theorem Jmap.mem_vals_set {α : Type} {m : Jmap α} {k : String} {v a : α}
    (h : a ∈ Jmap.vals (Jmap.set m k v)) : a ∈ Jmap.vals m ∨ a = v := by
  induction m with
  | nil => simpa [Jmap.set, Jmap.vals] using h
  | cons p rest ih =>
      obtain ⟨k', v'⟩ := p
      by_cases hk : k' = k
      · simp [Jmap.set, hk, Jmap.vals] at h
        rcases h with h | h
        · exact .inr h
        · exact .inl (by simp [Jmap.vals]; exact .inr h)
      · simp [Jmap.set, hk, Jmap.vals] at h
        rcases h with h | h
        · exact .inl (by simp [Jmap.vals, h])
        · rcases ih (by simpa [Jmap.vals] using h) with h' | h'
          · exact .inl (by simp [Jmap.vals] at h' ⊢; exact .inr h')
          · exact .inr h'

theorem Jmap.mem_vals_del {α : Type} {m : Jmap α} {k : String} {a : α}
    (h : a ∈ Jmap.vals (Jmap.del m k)) : a ∈ Jmap.vals m := by
  simp only [Jmap.vals, Jmap.del, List.mem_map] at h ⊢
  obtain ⟨p, hp, rfl⟩ := h
  exact ⟨p, (List.mem_filter.mp hp).1, rfl⟩

theorem Jmap.mem_keys_set {α : Type} {m : Jmap α} {k k' : String} {v : α}
    (h : k' ∈ Jmap.keys (Jmap.set m k v)) : k' ∈ Jmap.keys m ∨ k' = k := by
  induction m with
  | nil => exact .inr (by simpa [Jmap.set, Jmap.keys] using h)
  | cons p rest ih =>
      obtain ⟨k₀, v₀⟩ := p
      by_cases hk : k₀ = k
      · simp [Jmap.set, hk, Jmap.keys] at h ⊢
        tauto
      · simp [Jmap.set, hk, Jmap.keys] at h ⊢
        rcases h with h | h
        · tauto
        · rcases ih (by simpa [Jmap.keys] using h) with h' | h'
          · simp [Jmap.keys] at h'
            tauto
          · tauto

theorem Jmap.mem_keys_del {α : Type} {m : Jmap α} {k k' : String}
    (h : k' ∈ Jmap.keys (Jmap.del m k)) : k' ∈ Jmap.keys m := by
  simp only [Jmap.keys, Jmap.del, List.mem_map] at h ⊢
  obtain ⟨p, hp, rfl⟩ := h
  exact ⟨p, (List.mem_filter.mp hp).1, rfl⟩

/-! ## Concrete fixtures used by counterexamples and witnesses -/

/-- A bounty sitting in `validating` (photo submitted, adjudication in
flight) for wallet `W`. -/
def bountyV : ActiveBounty :=
  { id := "b1", missionId := "m1", playerWallet := "W", tier := .one
    entryAmount := ENTRY_AMOUNTS .one, status := .validating
    createdAt := 0, expiresAt := 600000, bountyPda := "pda1"
    transactionSignature := none }

def stValidating : BountyState :=
  { activeBounties := [("b1", bountyV)]
    bountyByPlayer := [("W", "b1")]
    missionSecrets := [] }

/-- The same bounty still `pending`. -/
def bountyP : ActiveBounty := { bountyV with status := .pending }

def stPending : BountyState :=
  { activeBounties := [("b1", bountyP)]
    bountyByPlayer := [("W", "b1")]
    missionSecrets := [] }

/-- The same bounty already settled as `won`. -/
def bountyW : ActiveBounty :=
  { bountyV with status := .won, transactionSignature := some "sig1" }

def stWon : BountyState :=
  { activeBounties := [("b1", bountyW)]
    bountyByPlayer := [("W", "b1")]
    missionSecrets := [] }

/-! ## C1 -/

/-- C1: the claim says a start request for a wallet with a non-terminal
(pending or validating) bounty always fails with Conflict and never
creates a second record.  Counterexample: with a `validating` bounty in
the store, the start handler does not return Conflict and the resulting
store holds two non-terminal bounties for the same wallet. -/
theorem c1_counterexample :
    bountyV.status = BountyStatus.validating ∧
    (startBountyHandler stValidating "W" .one "pda2" none "b2" "m2" [] []
        1000).isConflict = false ∧
    ((startBountyHandler stValidating "W" .one "pda2" none "b2" "m2" [] []
        1000).newState).map
        (fun st => (Jmap.vals st.activeBounties).map
          (fun b => (b.playerWallet, b.status))) =
      some [("W", .validating), ("W", .pending)] := by
  decide

/-- C1 (amended): only a `pending` bounty blocks a new start — the
route check and `createBounty` both reject with Conflict and create
nothing when the wallet's indexed bounty is pending, while a
`validating` bounty does not block, so a second non-terminal record can
be created. -/
theorem c1_amended (st : BountyState) (w id : String) (b : ActiveBounty)
    (tier : Tier) (pda : String) (tx : Option String) (nid mid : String)
    (mib salt : List Nat) (now : Nat)
    (hidx : Jmap.get st.bountyByPlayer w = some id)
    (hb : Jmap.get st.activeBounties id = some b) :
    (b.status = .pending →
      createBounty st w tier pda tx nid mid now =
        .error "Player already has an active bounty" ∧
      startBountyHandler st w tier pda tx nid mid mib salt now = .conflict) ∧
    (b.status = .validating →
      isOkE (createBounty st w tier pda tx nid mid now) = true) := by
  constructor
  · intro hpend
    constructor
    · simp [createBounty, hidx, hb, hpend]
    · simp [startBountyHandler, getPlayerActiveBounty, hidx, hb, hpend]
  · intro hval
    simp [createBounty, hidx, hb, hval, isOkE]

/-- C1 witness: the amended theorem at the concrete pending and
validating fixtures. -/
theorem c1_amended_witness :
    (Jmap.get stPending.bountyByPlayer "W" = some "b1" ∧
      Jmap.get stPending.activeBounties "b1" = some bountyP ∧
      bountyP.status = .pending) ∧
    createBounty stPending "W" .one "pda2" none "b2" "m2" 1000 =
      .error "Player already has an active bounty" := by
  refine ⟨⟨by decide, by decide, by decide⟩, ?_⟩
  exact ((c1_amended stPending "W" "b1" bountyP .one "pda2" none "b2" "m2"
    [] [] 1000 (by decide) (by decide)).1 (by decide)).1

/-! ## C2 -/

/-- C2: the claim says a second status update on a terminal bounty is
rejected and no operation moves a bounty out of a terminal state.
Counterexample: `updateBountyStatus` on a `won` bounty silently
overwrites both the status and the settlement reference. -/
theorem c2_counterexample :
    (Jmap.get stWon.activeBounties "b1").map ActiveBounty.status =
      some .won ∧
    ((updateBountyStatus stWon "b1" .lost (some "sig2")).2).map
        ActiveBounty.status = some .lost ∧
    ((updateBountyStatus stWon "b1" .lost (some "sig2")).2).map
        ActiveBounty.transactionSignature = some (some "sig2") := by
  decide

/-- C2 (amended): `updateBountyStatus` is an unconditional overwrite —
for any bounty in the store, including one already in a terminal state,
it sets the requested status and replaces the settlement reference when
one is supplied; nothing is rejected. -/
theorem c2_amended (st : BountyState) (id : String) (b : ActiveBounty)
    (status : BountyStatus) (sig : Option String)
    (hb : Jmap.get st.activeBounties id = some b) :
    (updateBountyStatus st id status sig).2 =
      some { b with
              status := status
              transactionSignature :=
                match sig with
                | some s => some s
                | none => b.transactionSignature } ∧
    Jmap.get (updateBountyStatus st id status sig).1.activeBounties id =
      some { b with
              status := status
              transactionSignature :=
                match sig with
                | some s => some s
                | none => b.transactionSignature } := by
  constructor
  · simp [updateBountyStatus, hb]
  · simp [updateBountyStatus, hb, Jmap.get_set_self]

/-- C2 witness: the amended theorem at the concrete `won` fixture. -/
theorem c2_amended_witness :
    Jmap.get stWon.activeBounties "b1" = some bountyW ∧
    (updateBountyStatus stWon "b1" .lost (some "sig2")).2 =
      some { bountyW with status := .lost, transactionSignature := some "sig2" } := by
  refine ⟨by decide, ?_⟩
  exact (c2_amended stWon "b1" bountyW .lost (some "sig2") (by decide)).1

/-! ## Settlement fixtures -/

/-- All three chain calls succeed. -/
def oracleAllOk : ChainOracle :=
  { revealResult := .ok "sigR"
    proposeResult := .ok "sigP"
    finalizeResult := .ok ("sigF", false) }

/-- Finalize is rejected because the challenge window is still open. -/
def oracleChallengeActive : ChainOracle :=
  { revealResult := .ok "sigR"
    proposeResult := .ok "sigP"
    finalizeResult := .error "custom program error: ChallengePeriodActive" }

/-- The `validating` bounty together with its stored commit-reveal
secrets, as the submit handler sees it. -/
def stWithSecrets : BountyState :=
  { activeBounties := [("b1", bountyV)]
    bountyByPlayer := [("W", "b1")]
    missionSecrets := [("b1", ⟨[1, 2], [3, 4]⟩)] }

/-- The same store with the mission secret missing. -/
def stNoSecrets : BountyState :=
  { activeBounties := [("b1", bountyV)]
    bountyByPlayer := [("W", "b1")]
    missionSecrets := [] }

/-! ## C3 -/

/-- C3: the claim says the sequencer issues reveal and propose
synchronously but never invokes finalize in the request path, always
handing finalize to the worker's queue.  Counterexample: on a plain
successful run the request path's call trace ends with `finalize`, and
the finalization queue stays empty — nothing was handed off. -/
theorem c3_counterexample :
    (submitSettlement stWithSecrets [] bountyV oracleAllOk true).calls =
      [.reveal, .propose true, .finalize] ∧
    (submitSettlement stWithSecrets [] bountyV oracleAllOk true).finalizerQueue
      = [] := by
  decide

/-- C3 (amended): the sequencer issues reveal and propose synchronously
and, whenever they succeed, also attempts finalize synchronously in the
same request path; the finalization worker's queue is never touched by
the request path. -/
theorem c3_amended (st : BountyState) (fq : Jmap PendingFinalization)
    (bounty : ActiveBounty) (oracle : ChainOracle) (success : Bool)
    (sR sP : String)
    (h1 : oracle.revealResult = .ok sR)
    (h2 : oracle.proposeResult = .ok sP) :
    (submitSettlement st fq bounty oracle success).finalizerQueue = fq ∧
    ChainCall.propose success ∈
      (submitSettlement st fq bounty oracle success).calls ∧
    ChainCall.finalize ∈ (submitSettlement st fq bounty oracle success).calls := by
  unfold submitSettlement resolveBountyOnChain
  rcases hsec : getMissionSecrets st bounty.id with _ | sec
  · rcases hfin : oracle.finalizeResult with e | sigPair
    · simp only [h1, h2, hsec, hfin]
      cases catchChallengePeriod e bounty.bountyPda <;> simp
    · simp [h1, h2, hsec, hfin]
  · rcases hfin : oracle.finalizeResult with e | sigPair
    · simp only [h1, h2, hsec, hfin]
      cases catchChallengePeriod e bounty.bountyPda <;> simp
    · simp [h1, h2, hsec, hfin]

/-- C3 witness: the amended theorem at the concrete all-success run. -/
theorem c3_amended_witness :
    (oracleAllOk.revealResult = .ok "sigR" ∧
      oracleAllOk.proposeResult = .ok "sigP") ∧
    ChainCall.finalize ∈
      (submitSettlement stWithSecrets [] bountyV oracleAllOk true).calls := by
  refine ⟨⟨by decide, by decide⟩, ?_⟩
  exact (c3_amended stWithSecrets [] bountyV oracleAllOk true "sigR" "sigP"
    (by decide) (by decide)).2.2

/-! ## C4 -/

/-- C4: the claim says that on a `ChallengePeriodActive` rejection the
request still succeeds AND the settlement reference is enqueued with
the finalization worker, which re-attempts later.  Counterexample: the
request does succeed with the adjudicated outcome and a placeholder
signature, but the finalization queue is left empty — the reference is
never enqueued, so no re-attempt will ever happen. -/
theorem c4_counterexample :
    (submitSettlement stWithSecrets [] bountyV oracleChallengeActive
        true).response =
      .ok (.won, { signature := "pending_finalize_pda1"
                   singularityWon := false }) ∧
    (submitSettlement stWithSecrets [] bountyV oracleChallengeActive
        true).finalizerQueue = [] ∧
    Jmap.get (submitSettlement stWithSecrets [] bountyV oracleChallengeActive
        true).finalizerQueue bountyV.bountyPda = none ∧
    processPendingFinalizations
      (submitSettlement stWithSecrets [] bountyV oracleChallengeActive
        true).finalizerQueue 999999999 (fun _ => true) = [] := by
  decide

/-- C4 (amended): whenever finalize is rejected with
`ChallengePeriodActive` (after reveal and propose succeeded), the
photo-submission request still succeeds with the adjudicated win/loss
outcome and a placeholder `pending_finalize_` signature, and the bounty
is recorded terminal; but the settlement reference is NOT enqueued with
the finalization worker, whose queue is left exactly as it was, so no
automatic re-attempt occurs. -/
theorem c4_amended (st : BountyState) (fq : Jmap PendingFinalization)
    (bounty : ActiveBounty) (oracle : ChainOracle) (success : Bool)
    (sR sP e : String)
    (h1 : oracle.revealResult = .ok sR)
    (h2 : oracle.proposeResult = .ok sP)
    (h3 : oracle.finalizeResult = .error e)
    (h4 : strIncludes e "ChallengePeriodActive" = true) :
    (submitSettlement st fq bounty oracle success).response =
      .ok (if success then .won else .lost,
           { signature := "pending_finalize_" ++ strTake bounty.bountyPda 16
             singularityWon := false }) ∧
    (submitSettlement st fq bounty oracle success).finalizerQueue = fq := by
  unfold submitSettlement resolveBountyOnChain catchChallengePeriod
  rcases hsec : getMissionSecrets st bounty.id with _ | sec <;>
    simp [h1, h2, h3, h4, hsec]

/-- C4 witness: the amended theorem on the concrete
challenge-period-active run. -/
theorem c4_amended_witness :
    (oracleChallengeActive.finalizeResult =
        .error "custom program error: ChallengePeriodActive" ∧
      strIncludes "custom program error: ChallengePeriodActive"
        "ChallengePeriodActive" = true) ∧
    (submitSettlement stWithSecrets [] bountyV oracleChallengeActive
        true).finalizerQueue = [] := by
  refine ⟨⟨by decide, by decide⟩, ?_⟩
  exact (c4_amended stWithSecrets [] bountyV oracleChallengeActive true
    "sigR" "sigP" "custom program error: ChallengePeriodActive"
    (by decide) (by decide) (by decide) (by decide)).2

/-! ## C5 -/

/-- C5: the claim says a missing mission-secret pair at reveal time is
a fatal precondition violation and the settlement sequence must not
silently proceed.  Counterexample: with no stored secret the sequencer
silently skips the reveal call and completes propose + finalize, and
the request succeeds with no error. -/
theorem c5_counterexample :
    getMissionSecrets stNoSecrets bountyV.id = none ∧
    (submitSettlement stNoSecrets [] bountyV oracleAllOk true).response =
      .ok (.won, { signature := "sigF", singularityWon := false }) ∧
    ChainCall.reveal ∉
      (submitSettlement stNoSecrets [] bountyV oracleAllOk true).calls := by
  decide

/-- C5 (amended): when the stored mission secret pair is absent, the
sequencer silently skips the reveal call and proceeds with propose and
finalize; the request completes without any error. -/
theorem c5_amended (st : BountyState) (fq : Jmap PendingFinalization)
    (bounty : ActiveBounty) (oracle : ChainOracle) (success : Bool)
    (sP sF : String) (sw : Bool)
    (hsec : getMissionSecrets st bounty.id = none)
    (h2 : oracle.proposeResult = .ok sP)
    (h3 : oracle.finalizeResult = .ok (sF, sw)) :
    (submitSettlement st fq bounty oracle success).calls =
      [.propose success, .finalize] ∧
    (submitSettlement st fq bounty oracle success).response =
      .ok (if success then .won else .lost,
           { signature := sF, singularityWon := sw }) := by
  unfold submitSettlement resolveBountyOnChain
  simp [hsec, h2, h3]

/-- C5 witness: the amended theorem at the concrete missing-secret
store. -/
theorem c5_amended_witness :
    (getMissionSecrets stNoSecrets bountyV.id = none ∧
      oracleAllOk.proposeResult = .ok "sigP" ∧
      oracleAllOk.finalizeResult = .ok ("sigF", false)) ∧
    (submitSettlement stNoSecrets [] bountyV oracleAllOk true).calls =
      [.propose true, .finalize] := by
  refine ⟨⟨by decide, by decide, by decide⟩, ?_⟩
  exact (c5_amended stNoSecrets [] bountyV oracleAllOk true "sigP" "sigF"
    false (by decide) (by decide) (by decide)).1

/-! ## Adjudication fixtures -/

/-- Plausible camera metadata that passes all pre-checks at
`now = 1005000` against a bounty started at `990000`. -/
def metaGood : PhotoMetadata :=
  { timestamp := some 1000000
    latitude := some (mkRat 1 1)
    longitude := some (mkRat 2 1)
    deviceMake := some "Apple"
    deviceModel := some "iPhone 15" }

/-- Metadata with neither GPS nor device make/model. -/
def metaEmpty : PhotoMetadata :=
  { timestamp := none, latitude := none, longitude := none
    deviceMake := none, deviceModel := none }

/-- A schema-valid model response: `isValid: true` at confidence 0.72. -/
def resultLowConf : ValidationResult :=
  { isValid := true
    confidence := mkRat 72 100
    reasoning := "Object clearly visible"
    detectedObjects := ["object"]
    isScreenshot := false
    matchesTarget := true }

/-! ## C6 -/

/-- C6: for every schema-validated model response that reaches the
post-processing step, a confidence strictly below the bounty tier's
floor (0.80 / 0.85 / 0.90), or a model-flagged screenshot, forces the
final verdict to `isValid = false` even when the model returned
`isValid = true`. -/
theorem c6 (isDev : Bool) (m : PhotoMetadata) (tier : Tier)
    (bountyStartTime : Option Int) (maxAge gmin : ℚ) (now : Int)
    (result : ValidationResult)
    (hreach : isDev = true ∨
      (performPreChecks m bountyStartTime maxAge now).1 = true)
    (hfail : result.confidence < TIER_CONFIDENCE_THRESHOLDS tier ∨
      result.isScreenshot = true) :
    (validatePhoto isDev m (some tier) bountyStartTime maxAge gmin now
      (.ok result)).1.isValid = false := by
  have post : (applyConfidenceFloor result (some tier) gmin).isValid = false := by
    unfold applyConfidenceFloor
    rcases hfail with h | h
    · simp only [h, if_true]
      split <;> simp
    · by_cases hconf : result.confidence < TIER_CONFIDENCE_THRESHOLDS tier <;>
        simp [hconf, h]
  rcases hreach with h | h
  · simp [validatePhoto, h, post]
  · simp [validatePhoto, h, post]

/-- C6 witness: confidence 0.72 against the tier-3 floor 0.90 yields a
loss despite `isValid: true` from the model. -/
theorem c6_witness :
    ((false = true ∨
        (performPreChecks metaGood (some 990000) (mkRat 300 1) 1005000).1 =
          true) ∧
      (resultLowConf.confidence < TIER_CONFIDENCE_THRESHOLDS .three ∨
        resultLowConf.isScreenshot = true)) ∧
    (validatePhoto false metaGood (some .three) (some 990000) (mkRat 300 1)
      (mkRat 7 10) 1005000 (.ok resultLowConf)).1.isValid = false := by
  refine ⟨⟨Or.inr (by decide), Or.inl (by decide)⟩, ?_⟩
  exact c6 false metaGood .three (some 990000) (mkRat 300 1) (mkRat 7 10)
    1005000 resultLowConf (Or.inr (by decide)) (Or.inl (by decide))

/-! ## C7 -/

/-- C7: a photo whose metadata carries neither GPS nor device
make/model is always rejected by the pre-checker with a terminal
`isValid = false`, `isScreenshot = true` verdict, and the vision call
is never issued for it (in the strict, non-dev configuration in which
the pre-checker runs). -/
theorem c7 (m : PhotoMetadata) (tier : Option Tier)
    (bountyStartTime : Option Int) (maxAge gmin : ℚ) (now : Int)
    (aiOutcome : Except String ValidationResult)
    (hlat : m.latitude = none) (hlon : m.longitude = none)
    (hmake : m.deviceMake = none) (hmodel : m.deviceModel = none) :
    isLikelyScreenshot m = true ∧
    performPreChecks m bountyStartTime maxAge now =
      (false,
       { isValid := false
         confidence := mkRat 9 10
         reasoning := "Photo metadata indicates this is likely a screenshot (no GPS, no device info)"
         detectedObjects := []
         isScreenshot := true
         matchesTarget := false }) ∧
    validatePhoto false m tier bountyStartTime maxAge gmin now aiOutcome =
      ((performPreChecks m bountyStartTime maxAge now).2, false) := by
  have hscr : isLikelyScreenshot m = true := by
    simp [isLikelyScreenshot, numFalsy, stringFalsy, hlat, hlon, hmake, hmodel]
  have hpre : performPreChecks m bountyStartTime maxAge now =
      (false,
       { isValid := false
         confidence := mkRat 9 10
         reasoning := "Photo metadata indicates this is likely a screenshot (no GPS, no device info)"
         detectedObjects := []
         isScreenshot := true
         matchesTarget := false }) := by
    simp [performPreChecks, hscr]
  refine ⟨hscr, hpre, ?_⟩
  simp [validatePhoto, hpre]

/-- C7 witness: the metadata-free photo short-circuits before any
vision call. -/
theorem c7_witness :
    (metaEmpty.latitude = none ∧ metaEmpty.longitude = none ∧
      metaEmpty.deviceMake = none ∧ metaEmpty.deviceModel = none) ∧
    validatePhoto false metaEmpty (some .one) none (mkRat 300 1) (mkRat 7 10)
        0 (.ok resultLowConf) =
      ((performPreChecks metaEmpty none (mkRat 300 1) 0).2, false) := by
  refine ⟨⟨rfl, rfl, rfl, rfl⟩, ?_⟩
  exact (c7 metaEmpty (some .one) none (mkRat 300 1) (mkRat 7 10) 0
    (.ok resultLowConf) rfl rfl rfl rfl).2.2

/-! ## Finalizer lemmas -/

theorem finalizeAttemptStep_vals_bound {acc : Jmap PendingFinalization}
    {q : PendingFinalization} {ok : Bool}
    (hacc : ∀ p ∈ Jmap.vals acc, p.attempts < MAX_ATTEMPTS) :
    ∀ p ∈ Jmap.vals (finalizeAttemptStep acc q ok),
      p.attempts < MAX_ATTEMPTS := by
  intro p hp
  simp only [finalizeAttemptStep] at hp
  split at hp
  · exact hacc p (Jmap.mem_vals_del hp)
  · split at hp
    · exact hacc p (Jmap.mem_vals_del hp)
    · rename_i hle
      rcases Jmap.mem_vals_set hp with h | h
      · exact hacc p h
      · subst h
        exact Nat.lt_of_not_le (by simpa using hle)

theorem finalizeAttemptStep_keys_subset {acc : Jmap PendingFinalization}
    {q : PendingFinalization} {ok : Bool} {k : String}
    (hk : k ∈ Jmap.keys (finalizeAttemptStep acc q ok)) :
    k ∈ Jmap.keys acc ∨ k = q.bountyPda := by
  simp only [finalizeAttemptStep] at hk
  split at hk
  · exact .inl (Jmap.mem_keys_del hk)
  · split at hk
    · exact .inl (Jmap.mem_keys_del hk)
    · rcases Jmap.mem_keys_set hk with h | h
      · exact .inl h
      · exact .inr (by simpa using h)

theorem finalizerFold_vals_bound (outcome : String → Bool) :
    ∀ (ps : List PendingFinalization) (acc : Jmap PendingFinalization),
      (∀ p ∈ Jmap.vals acc, p.attempts < MAX_ATTEMPTS) →
      ∀ p ∈ Jmap.vals (List.foldl
          (fun a r => finalizeAttemptStep a r (outcome r.bountyPda)) acc ps),
        p.attempts < MAX_ATTEMPTS := by
  intro ps
  induction ps with
  | nil => intro acc hacc; simpa using hacc
  | cons r rest ih =>
      intro acc hacc
      simpa using ih _ (finalizeAttemptStep_vals_bound hacc)

theorem finalizerFold_keys_subset (outcome : String → Bool) :
    ∀ (ps : List PendingFinalization) (acc : Jmap PendingFinalization)
      (k : String),
      k ∈ Jmap.keys (List.foldl
        (fun a r => finalizeAttemptStep a r (outcome r.bountyPda)) acc ps) →
      k ∈ Jmap.keys acc ∨ k ∈ ps.map (fun p => p.bountyPda) := by
  intro ps
  induction ps with
  | nil => intro acc k hk; exact .inl (by simpa using hk)
  | cons r rest ih =>
      intro acc k hk
      rcases ih _ k (by simpa using hk) with h | h
      · rcases finalizeAttemptStep_keys_subset h with h' | h'
        · exact .inl h'
        · exact .inr (by simp [h'])
      · exact .inr (by simp [h])

/-! ## C8 -/

/-- C8: queued attempt counters never reach the configured maximum
(10); the worker never adds a settlement reference to the queue (so a
record removed at the limit is never automatically retried); a failed
attempt below the limit increments the counter and keeps the record
queued, and the attempt that reaches the limit removes it. -/
theorem c8 (q : Jmap PendingFinalization) (now : Nat)
    (outcome : String → Bool)
    (hq : ∀ p ∈ Jmap.vals q, p.attempts < MAX_ATTEMPTS)
    (hwf : ∀ e ∈ q, (Prod.snd e).bountyPda = Prod.fst e) :
    (∀ p ∈ Jmap.vals (processPendingFinalizations q now outcome),
      p.attempts < MAX_ATTEMPTS) ∧
    (∀ k, k ∈ Jmap.keys (processPendingFinalizations q now outcome) →
      k ∈ Jmap.keys q) ∧
    (∀ (q' : Jmap PendingFinalization) (p : PendingFinalization),
      p.attempts + 1 < MAX_ATTEMPTS →
      Jmap.get (finalizeAttemptStep q' p false) p.bountyPda =
        some { p with attempts := p.attempts + 1 }) ∧
    (∀ (q' : Jmap PendingFinalization) (p : PendingFinalization),
      MAX_ATTEMPTS ≤ p.attempts + 1 →
      Jmap.get (finalizeAttemptStep q' p false) p.bountyPda = none) := by
  refine ⟨?_, ?_, ?_, ?_⟩
  · exact fun p hp => finalizerFold_vals_bound outcome _ q hq p hp
  · intro k hk
    rcases finalizerFold_keys_subset outcome _ q k hk with h | h
    · exact h
    · simp only [List.mem_map] at h
      obtain ⟨p, hp, rfl⟩ := h
      have hpv : p ∈ Jmap.vals q := (List.mem_filter.mp hp).1
      simp only [Jmap.vals, List.mem_map] at hpv
      obtain ⟨e, he, rfl⟩ := hpv
      rw [hwf e he]
      simp only [Jmap.keys, List.mem_map]
      exact ⟨e, he, rfl⟩
  · intro q' p hlt
    simp [finalizeAttemptStep, Nat.not_le.mpr hlt, Jmap.get_set_self]
  · intro q' p hle
    simp [finalizeAttemptStep, hle, Jmap.get_del_self]

/-- A queued record one attempt away from the ceiling. -/
def pendingNine : PendingFinalization :=
  { bountyPda := "pdaX", playerWallet := "W", challengeEndsAt := 100
    attempts := 9, addedAt := 50 }

/-- C8 witness: a due single-record queue at the concrete poll. -/
theorem c8_witness :
    ((∀ p ∈ Jmap.vals [("pdaX", pendingNine)], p.attempts < MAX_ATTEMPTS) ∧
      (∀ e ∈ [("pdaX", pendingNine)],
        (Prod.snd e).bountyPda = Prod.fst e)) ∧
    (∀ k, k ∈ Jmap.keys
        (processPendingFinalizations [("pdaX", pendingNine)] 200
          (fun _ => false)) →
      k ∈ Jmap.keys [("pdaX", pendingNine)]) := by
  refine ⟨⟨by decide, by decide⟩, ?_⟩
  exact (c8 [("pdaX", pendingNine)] 200 (fun _ => false) (by decide)
    (by decide)).2.1

/-! ## C9 -/

/-- C9: a credential token already registered to wallet A can never be
claimed by a different wallet B — even with a valid signature and
on-chain ownership resolving to the same mint, verification fails with
the sybil-specific error and the registry still maps the mint to A. -/
theorem c9 (st : SGTState) (walletA walletB mint : String) (now : Nat)
    (hreg : Jmap.get st.sgtMintToWallet mint = some walletA)
    (hneq : walletA ≠ walletB) :
    (verifySGTForWallet st walletB true true (some mint) now).1 = st ∧
    (verifySGTForWallet st walletB true true (some mint) now).2.verified =
      false ∧
    (verifySGTForWallet st walletB true true (some mint) now).2.error =
      some "This SGT is already registered to another wallet" ∧
    Jmap.get (verifySGTForWallet st walletB true true
        (some mint) now).1.sgtMintToWallet mint = some walletA := by
  simp [verifySGTForWallet, hreg, hneq]

/-- A registry in which `mint1` is bound to `walletA`. -/
def sgtStateA : SGTState :=
  { verifiedWallets := []
    sgtMintToWallet := [("mint1", "walletA")] }

/-- C9 witness: wallet B's attempt against A's standing binding. -/
theorem c9_witness :
    (Jmap.get sgtStateA.sgtMintToWallet "mint1" = some "walletA" ∧
      "walletA" ≠ "walletB") ∧
    (verifySGTForWallet sgtStateA "walletB" true true
        (some "mint1") 77).2.verified = false := by
  refine ⟨⟨by decide, by decide⟩, ?_⟩
  exact (c9 sgtStateA "walletA" "walletB" "mint1" 77 (by decide)
    (by decide)).2.1

/-! ## C10 -/

/-- C10: when the purge removes an old terminal bounty it deletes the
wallet's player-to-bounty index entry unconditionally; if the wallet
has since started a newer bounty (so the index points at the new id),
the purge removes the index entry for the still-live bounty — the
live record survives, but the active-bounty lookup then returns
nothing and a new create request succeeds while the newer bounty is
still pending. -/
theorem c10 (id1 id2 w : String) (b1 b2 : ActiveBounty)
    (ms : Jmap MissionSecret) (now maxAgeHours : Nat) (tier : Tier)
    (pda : String) (tx : Option String) (nid mid : String) (now2 : Nat)
    (hne : id1 ≠ id2)
    (hw : b1.playerWallet = w)
    (ht1 : b1.status ≠ .pending)
    (ht2 : b1.status ≠ .validating)
    (hold : b1.createdAt < now - maxAgeHours * 60 * 60 * 1000)
    (hp2 : b2.status = .pending) :
    Jmap.get (cleanupOldBounties ⟨[(id1, b1), (id2, b2)], [(w, id2)], ms⟩
        now maxAgeHours).activeBounties id2 = some b2 ∧
    Jmap.get (cleanupOldBounties ⟨[(id1, b1), (id2, b2)], [(w, id2)], ms⟩
        now maxAgeHours).bountyByPlayer w = none ∧
    getPlayerActiveBounty (cleanupOldBounties
        ⟨[(id1, b1), (id2, b2)], [(w, id2)], ms⟩ now maxAgeHours) w = none ∧
    isOkE (createBounty (cleanupOldBounties
        ⟨[(id1, b1), (id2, b2)], [(w, id2)], ms⟩ now maxAgeHours)
      w tier pda tx nid mid now2) = true := by
  have hclean : cleanupOldBounties ⟨[(id1, b1), (id2, b2)], [(w, id2)], ms⟩
      now maxAgeHours = ⟨[(id2, b2)], [], Jmap.del ms id1⟩ := by
    unfold cleanupOldBounties
    simp only [List.foldl_cons, List.foldl_nil]
    rw [if_neg (show ¬(b2.status ≠ BountyStatus.pending ∧
          b2.status ≠ BountyStatus.validating ∧
          b2.createdAt < now - maxAgeHours * 60 * 60 * 1000) by simp [hp2]),
      if_pos ⟨ht1, ht2, hold⟩]
    simp [Jmap.del, hw, hne, Ne.symm hne]
  rw [hclean]
  refine ⟨by simp [Jmap.get], rfl, by simp [getPlayerActiveBounty, Jmap.get],
    by simp [createBounty, Jmap.get, isOkE]⟩

/-- The newer pending bounty of the same wallet, started after the old
one settled. -/
def bountyP2 : ActiveBounty :=
  { bountyP with
      id := "b2"
      bountyPda := "pda2"
      createdAt := 89000000
      expiresAt := 89600000 }

/-- C10 witness: purging the old won bounty of wallet `W` unindexes the
still-pending newer one. -/
theorem c10_witness :
    (("b1" : String) ≠ "b2" ∧ bountyW.playerWallet = "W" ∧
      bountyW.status ≠ .pending ∧ bountyW.status ≠ .validating ∧
      bountyW.createdAt < 90000000 - 24 * 60 * 60 * 1000 ∧
      bountyP2.status = .pending) ∧
    getPlayerActiveBounty (cleanupOldBounties
      ⟨[("b1", bountyW), ("b2", bountyP2)], [("W", "b2")], []⟩
      90000000 24) "W" = none := by
  refine ⟨⟨by decide, by decide, by decide, by decide, by decide, by decide⟩, ?_⟩
  exact (c10 "b1" "b2" "W" bountyW bountyP2 [] 90000000 24 .one "pda3" none
    "b3" "m3" 91000000 (by decide) (by decide) (by decide) (by decide)
    (by decide) (by decide)).2.2.1

end Seek
